import Mathlib

/-!
# Memory pools of the generated network: `network_data_params.h`

The header `inference_tests/model/network_data_params.h` holds the size
constants of the activation and weight pools of the network, two accessors
into handle tables, and the declarations of those two tables.

Embedding used here:

* an object-like macro whose body is an integer literal is a `Nat` constant of
  the same name;
* a macro whose body is a brace list (`{ 37504, }`) is a `List Nat`;
* the macros `..._<i>_SIZE`, whose name carries the buffer index, are also
  given as a partial function of the index, `none` where the header defines
  no macro of that name;
* a file-scope declaration is a `Declaration` record (storage class, element
  type, name, array length, initializer);
* `&table[k]` is an `ElemRef`: the table it points into and the index `k`.
  The element type `ai_handle` comes from `ai_platform.h`; nothing below
  depends on what it is, so table contents are lists over an arbitrary type.
-/

namespace NetworkDataParams

/-! ## Declarations and element references -/

/-- Storage-class specifier written in front of a file-scope declaration. -/
inductive StorageClass where
  | unspecified
  | staticSpecifier
  | externSpecifier
  deriving DecidableEq, Repr

/-- A file-scope array declaration `<storage> <elemType> <name>[<length>] (= <init>)?;`.
`init` is `none` when the declaration carries no initializer. -/
structure Declaration where
  storage : StorageClass
  elemType : String
  name : String
  length : Nat
  init : Option (List Nat)
  deriving DecidableEq, Repr

/-- A file-scope declaration defines its object when it has an initializer or
is not marked with the extern specifier (a tentative definition). -/
def Declaration.isDefinition (d : Declaration) : Bool :=
  d.init.isSome || d.storage != StorageClass.externSpecifier

/-- The value of `&table[index]`: a reference to one element of a declared table. -/
structure ElemRef where
  table : Declaration
  index : Nat
  deriving DecidableEq, Repr

/-- Read through an element reference, given the contents of its table;
`none` when the index is outside the contents. -/
def ElemRef.read {α : Type} (r : ElemRef) (contents : List α) : Option α :=
  contents[r.index]?

/-! ## The activation pool (header lines 31-35) -/

/-- Header line 31-32: `#define AI_NETWORK_DATA_ACTIVATIONS_SIZES { 37504, }`. -/
def AI_NETWORK_DATA_ACTIVATIONS_SIZES : List Nat := [37504]

/-- Header line 33: `#define AI_NETWORK_DATA_ACTIVATIONS_SIZE (37504)`. -/
def AI_NETWORK_DATA_ACTIVATIONS_SIZE : Nat := 37504

/-- Header line 34: `#define AI_NETWORK_DATA_ACTIVATIONS_COUNT (1)`. -/
def AI_NETWORK_DATA_ACTIVATIONS_COUNT : Nat := 1

/-- Header line 35: `#define AI_NETWORK_DATA_ACTIVATION_1_SIZE (37504)`. -/
def AI_NETWORK_DATA_ACTIVATION_1_SIZE : Nat := 37504

/-- The macros `AI_NETWORK_DATA_ACTIVATION_<i>_SIZE` by index `i`. The header
defines the one for `i = 1` only. -/
def AI_NETWORK_DATA_ACTIVATION_i_SIZE : Nat → Option Nat
  | 1 => some AI_NETWORK_DATA_ACTIVATION_1_SIZE
  | _ => none

/-! ## The weight pool (header lines 39-43) -/

/-- Header line 39-40: `#define AI_NETWORK_DATA_WEIGHTS_SIZES { 18060, }`. -/
def AI_NETWORK_DATA_WEIGHTS_SIZES : List Nat := [18060]

/-- Header line 41: `#define AI_NETWORK_DATA_WEIGHTS_SIZE (18060)`. -/
def AI_NETWORK_DATA_WEIGHTS_SIZE : Nat := 18060

/-- Header line 42: `#define AI_NETWORK_DATA_WEIGHTS_COUNT (1)`. -/
def AI_NETWORK_DATA_WEIGHTS_COUNT : Nat := 1

/-- Header line 43: `#define AI_NETWORK_DATA_WEIGHT_1_SIZE (18060)`. -/
def AI_NETWORK_DATA_WEIGHT_1_SIZE : Nat := 18060

/-- The macros `AI_NETWORK_DATA_WEIGHT_<i>_SIZE` by index `i`. The header
defines the one for `i = 1` only. -/
def AI_NETWORK_DATA_WEIGHT_i_SIZE : Nat → Option Nat
  | 1 => some AI_NETWORK_DATA_WEIGHT_1_SIZE
  | _ => none

/-! ## The handle tables and their accessors (header lines 47-57) -/

/-- Header line 50: the declaration of `g_network_activations_table`, with the
extern specifier, element type `ai_handle`, length `1 + 2`, no initializer. -/
def g_network_activations_table : Declaration :=
  ⟨StorageClass.externSpecifier, "ai_handle", "g_network_activations_table", 1 + 2, none⟩

/-- Header line 57: the declaration of `g_network_weights_table`, with the
extern specifier, element type `ai_handle`, length `1 + 2`, no initializer. -/
def g_network_weights_table : Declaration :=
  ⟨StorageClass.externSpecifier, "ai_handle", "g_network_weights_table", 1 + 2, none⟩

/-- Header line 47-48: `AI_NETWORK_DATA_ACTIVATIONS_TABLE_GET()` expands to
`(&g_network_activations_table[1])`. -/
def AI_NETWORK_DATA_ACTIVATIONS_TABLE_GET : ElemRef :=
  ⟨g_network_activations_table, 1⟩

/-- Header line 54-55: `AI_NETWORK_DATA_WEIGHTS_TABLE_GET()` expands to
`(&g_network_weights_table[1])`. -/
def AI_NETWORK_DATA_WEIGHTS_TABLE_GET : ElemRef :=
  ⟨g_network_weights_table, 1⟩

/-- Every file-scope declaration of the header, in source order. All other
lines of the header are preprocessor directives or comments, which declare
and define no object. -/
def headerDeclarations : List Declaration :=
  [g_network_activations_table, g_network_weights_table]

/-! ## Notions used to state the properties -/

/-- The values of the macros `perBuffer 1, ..., perBuffer count`, summed;
`none` when one of these macros is not defined. -/
def sumPerBuffer (perBuffer : Nat → Option Nat) (count : Nat) : Option Nat :=
  ((List.range' 1 count).mapM perBuffer).map List.sum

/-- Index `k` is a real entry of a table serving `count` buffers. -/
def isRealIndex (count k : Nat) : Prop := 1 ≤ k ∧ k ≤ count

instance (count k : Nat) : Decidable (isRealIndex count k) := by
  unfold isRealIndex; infer_instance

/-- The slots of a table of `len` entries that are not real entries when the
table serves `count` buffers, in increasing order. -/
def reservedSlots (len count : Nat) : List Nat :=
  (List.range len).filter (fun k => !decide (isRealIndex count k))

/-! ## Properties of the header -/

/-- C1: the total activation size `AI_NETWORK_DATA_ACTIVATIONS_SIZE` equals the
sum of the per-buffer macros `AI_NETWORK_DATA_ACTIVATION_<i>_SIZE` over every
`i` from 1 to `AI_NETWORK_DATA_ACTIVATIONS_COUNT`, each of which is defined;
with a count of 1 both sides are 37504. -/
theorem activations_size_eq_sum :
    sumPerBuffer AI_NETWORK_DATA_ACTIVATION_i_SIZE AI_NETWORK_DATA_ACTIVATIONS_COUNT
        = some AI_NETWORK_DATA_ACTIVATIONS_SIZE
      ∧ AI_NETWORK_DATA_ACTIVATIONS_COUNT = 1
      ∧ AI_NETWORK_DATA_ACTIVATIONS_SIZE = 37504 := by
  refine ⟨?_, rfl, rfl⟩
  decide

/-- C2: the total weight size `AI_NETWORK_DATA_WEIGHTS_SIZE` equals the sum of
the per-buffer macros `AI_NETWORK_DATA_WEIGHT_<i>_SIZE` over every `i` from 1
to `AI_NETWORK_DATA_WEIGHTS_COUNT`, each of which is defined; with a count of
1 both sides are 18060. -/
theorem weights_size_eq_sum :
    sumPerBuffer AI_NETWORK_DATA_WEIGHT_i_SIZE AI_NETWORK_DATA_WEIGHTS_COUNT
        = some AI_NETWORK_DATA_WEIGHTS_SIZE
      ∧ AI_NETWORK_DATA_WEIGHTS_COUNT = 1
      ∧ AI_NETWORK_DATA_WEIGHTS_SIZE = 18060 := by
  refine ⟨?_, rfl, rfl⟩
  decide

/-- C3: each of the two `TABLE_GET` accessors refers to the element at index 1,
not index 0, of its own handle table, and the declared length of each table is
the matching count constant plus 2, which is 3. -/
theorem table_get_index_one :
    (AI_NETWORK_DATA_ACTIVATIONS_TABLE_GET.table = g_network_activations_table
      ∧ AI_NETWORK_DATA_ACTIVATIONS_TABLE_GET.index = 1
      ∧ AI_NETWORK_DATA_ACTIVATIONS_TABLE_GET.index ≠ 0
      ∧ g_network_activations_table.length = AI_NETWORK_DATA_ACTIVATIONS_COUNT + 2
      ∧ g_network_activations_table.length = 3)
    ∧ (AI_NETWORK_DATA_WEIGHTS_TABLE_GET.table = g_network_weights_table
      ∧ AI_NETWORK_DATA_WEIGHTS_TABLE_GET.index = 1
      ∧ AI_NETWORK_DATA_WEIGHTS_TABLE_GET.index ≠ 0
      ∧ g_network_weights_table.length = AI_NETWORK_DATA_WEIGHTS_COUNT + 2
      ∧ g_network_weights_table.length = 3)
    ∧ g_network_activations_table.name ≠ g_network_weights_table.name := by
  refine ⟨⟨rfl, rfl, by decide, rfl, rfl⟩, ⟨rfl, rfl, by decide, rfl, rfl⟩, by decide⟩

/-- Reading a list at an index succeeds exactly below its length. -/
theorem isSome_getElem?_iff {α : Type} (l : List α) (k : Nat) :
    (l[k]?).isSome = true ↔ k < l.length := by
  rw [Option.isSome_iff_exists]
  constructor
  · rintro ⟨a, ha⟩
    exact (List.getElem?_eq_some.mp ha).1
  · intro h
    exact ⟨l[k], List.getElem?_eq_getElem h⟩

/-- Slot facts for any table of three entries that serves one buffer. -/
theorem slots_of_length_three {α : Type} (t : List α) (h : t.length = 3) :
    (∀ k, isRealIndex 1 k → (t[k]?).isSome = true)
      ∧ (t[1]?).isSome = true
      ∧ reservedSlots t.length 1 = [0, 1 + 1]
      ∧ (∀ k, ((t[k]?).isSome = true ∧ ¬ isRealIndex 1 k) ↔ (k = 0 ∨ k = 1 + 1))
      ∧ (t[1 + 1]?).isSome = true
      ∧ (∀ k, 1 + 1 < k → t[k]? = none) := by
  refine ⟨?_, ?_, ?_, ?_, ?_, ?_⟩
  · intro k hk
    rw [isSome_getElem?_iff, h]
    unfold isRealIndex at hk
    omega
  · rw [isSome_getElem?_iff, h]; omega
  · rw [h]; decide
  · intro k
    rw [isSome_getElem?_iff, h]
    unfold isRealIndex
    omega
  · rw [isSome_getElem?_iff, h]; omega
  · intro k hk
    rw [List.getElem?_eq_none_iff, h]
    omega

/-- C4: model each handle table as a list of its declared length, read with
`[k]?`. For the activations table and for the weights table: every real index
`k` with `1 ≤ k ≤ COUNT` is in bounds, so the index-1 read made by the
`TABLE_GET` accessor succeeds; the slots outside the real range are exactly
the two slots `0` and `COUNT + 1`; and `COUNT + 1` is the last valid index. -/
theorem handle_table_slots {α : Type} (acts wts : List α)
    (ha : acts.length = g_network_activations_table.length)
    (hw : wts.length = g_network_weights_table.length) :
    ((∀ k, isRealIndex AI_NETWORK_DATA_ACTIVATIONS_COUNT k → (acts[k]?).isSome = true)
      ∧ (AI_NETWORK_DATA_ACTIVATIONS_TABLE_GET.read acts).isSome = true
      ∧ reservedSlots acts.length AI_NETWORK_DATA_ACTIVATIONS_COUNT
          = [0, AI_NETWORK_DATA_ACTIVATIONS_COUNT + 1]
      ∧ (∀ k, ((acts[k]?).isSome = true ∧ ¬ isRealIndex AI_NETWORK_DATA_ACTIVATIONS_COUNT k)
          ↔ (k = 0 ∨ k = AI_NETWORK_DATA_ACTIVATIONS_COUNT + 1))
      ∧ (acts[AI_NETWORK_DATA_ACTIVATIONS_COUNT + 1]?).isSome = true
      ∧ (∀ k, AI_NETWORK_DATA_ACTIVATIONS_COUNT + 1 < k → acts[k]? = none))
    ∧ ((∀ k, isRealIndex AI_NETWORK_DATA_WEIGHTS_COUNT k → (wts[k]?).isSome = true)
      ∧ (AI_NETWORK_DATA_WEIGHTS_TABLE_GET.read wts).isSome = true
      ∧ reservedSlots wts.length AI_NETWORK_DATA_WEIGHTS_COUNT
          = [0, AI_NETWORK_DATA_WEIGHTS_COUNT + 1]
      ∧ (∀ k, ((wts[k]?).isSome = true ∧ ¬ isRealIndex AI_NETWORK_DATA_WEIGHTS_COUNT k)
          ↔ (k = 0 ∨ k = AI_NETWORK_DATA_WEIGHTS_COUNT + 1))
      ∧ (wts[AI_NETWORK_DATA_WEIGHTS_COUNT + 1]?).isSome = true
      ∧ (∀ k, AI_NETWORK_DATA_WEIGHTS_COUNT + 1 < k → wts[k]? = none)) :=
  ⟨slots_of_length_three acts ha, slots_of_length_three wts hw⟩

/-- Witness of C4 at two tables of three null handles. -/
theorem handle_table_slots_witness :
    ([0, 0, 0] : List Nat).length = g_network_activations_table.length
    ∧ (AI_NETWORK_DATA_ACTIVATIONS_TABLE_GET.read ([0, 0, 0] : List Nat)).isSome = true
    ∧ (AI_NETWORK_DATA_WEIGHTS_TABLE_GET.read ([0, 0, 0] : List Nat)).isSome = true
    ∧ reservedSlots ([0, 0, 0] : List Nat).length AI_NETWORK_DATA_WEIGHTS_COUNT = [0, 2] :=
  ⟨rfl, (handle_table_slots [0, 0, 0] [0, 0, 0] rfl rfl).1.2.1,
    (handle_table_slots [0, 0, 0] [0, 0, 0] rfl rfl).2.2.1,
    (handle_table_slots [0, 0, 0] [0, 0, 0] rfl rfl).2.2.2.1⟩

/-- C5: the header describes exactly one activation buffer, of 37504 bytes,
and exactly one weight buffer, of 18060 bytes: both counts are 1, the
per-buffer size macros of index 1 are 37504 and 18060, and no per-buffer size
macro of another index is defined. -/
theorem one_buffer_each :
    AI_NETWORK_DATA_ACTIVATIONS_COUNT = 1
    ∧ AI_NETWORK_DATA_ACTIVATION_1_SIZE = 37504
    ∧ AI_NETWORK_DATA_WEIGHTS_COUNT = 1
    ∧ AI_NETWORK_DATA_WEIGHT_1_SIZE = 18060
    ∧ (∀ i, (AI_NETWORK_DATA_ACTIVATION_i_SIZE i).isSome = true ↔ i = 1)
    ∧ (∀ i, (AI_NETWORK_DATA_WEIGHT_i_SIZE i).isSome = true ↔ i = 1) := by
  refine ⟨rfl, rfl, rfl, rfl, ?_, ?_⟩
  · intro i
    unfold AI_NETWORK_DATA_ACTIVATION_i_SIZE
    split <;> simp_all
  · intro i
    unfold AI_NETWORK_DATA_WEIGHT_i_SIZE
    split <;> simp_all

/-- C6: both handle tables are declared in the header with the extern
specifier, and every declaration of either name in the header has that
specifier, has no initializer, and is not a definition. -/
theorem handle_tables_declared_not_defined :
    g_network_activations_table ∈ headerDeclarations
    ∧ g_network_weights_table ∈ headerDeclarations
    ∧ g_network_activations_table.name = "g_network_activations_table"
    ∧ g_network_weights_table.name = "g_network_weights_table"
    ∧ ∀ d ∈ headerDeclarations,
        (d.name = "g_network_activations_table" ∨ d.name = "g_network_weights_table") →
          d.storage = StorageClass.externSpecifier ∧ d.init = none
            ∧ d.isDefinition = false := by
  refine ⟨by simp [headerDeclarations], by simp [headerDeclarations], rfl, rfl, ?_⟩
  intro d hd _
  simp only [headerDeclarations, List.mem_cons, List.mem_singleton, List.not_mem_nil,
    or_false] at hd
  rcases hd with rfl | rfl <;> exact ⟨rfl, rfl, rfl⟩

/-- C7: the size lists agree with the scalar constants. The list
`AI_NETWORK_DATA_ACTIVATIONS_SIZES` has `AI_NETWORK_DATA_ACTIVATIONS_COUNT`
entries, its `i`-th entry (counting from 1) is the macro
`AI_NETWORK_DATA_ACTIVATION_<i>_SIZE`, and its sum is
`AI_NETWORK_DATA_ACTIVATIONS_SIZE`; the same holds for the weights. -/
theorem sizes_lists_agree :
    (AI_NETWORK_DATA_ACTIVATIONS_SIZES.length = AI_NETWORK_DATA_ACTIVATIONS_COUNT
      ∧ (∀ i, isRealIndex AI_NETWORK_DATA_ACTIVATIONS_COUNT i →
          AI_NETWORK_DATA_ACTIVATIONS_SIZES[i - 1]? = AI_NETWORK_DATA_ACTIVATION_i_SIZE i
            ∧ (AI_NETWORK_DATA_ACTIVATION_i_SIZE i).isSome = true)
      ∧ AI_NETWORK_DATA_ACTIVATIONS_SIZES.sum = AI_NETWORK_DATA_ACTIVATIONS_SIZE)
    ∧ (AI_NETWORK_DATA_WEIGHTS_SIZES.length = AI_NETWORK_DATA_WEIGHTS_COUNT
      ∧ (∀ i, isRealIndex AI_NETWORK_DATA_WEIGHTS_COUNT i →
          AI_NETWORK_DATA_WEIGHTS_SIZES[i - 1]? = AI_NETWORK_DATA_WEIGHT_i_SIZE i
            ∧ (AI_NETWORK_DATA_WEIGHT_i_SIZE i).isSome = true)
      ∧ AI_NETWORK_DATA_WEIGHTS_SIZES.sum = AI_NETWORK_DATA_WEIGHTS_SIZE) := by
  refine ⟨⟨rfl, ?_, rfl⟩, ⟨rfl, ?_, rfl⟩⟩
  · intro i hi
    have h1 : i = 1 := by
      unfold isRealIndex AI_NETWORK_DATA_ACTIVATIONS_COUNT at hi
      omega
    subst h1
    exact ⟨rfl, rfl⟩
  · intro i hi
    have h1 : i = 1 := by
      unfold isRealIndex AI_NETWORK_DATA_WEIGHTS_COUNT at hi
      omega
    subst h1
    exact ⟨rfl, rfl⟩

end NetworkDataParams
